import Mathlib

/-!
Shallow embedding of the To-Do-List web application (`main.py`).

The data model has four tables (`categories`, `to_dos`, `got_dones`, `users`);
the claims under study concern the first three, so the store carries those.
Each Flask view function is embedded as a pure function from a `Store` (plus
the request's inputs: the submitted form if any, the authentication status of
the session, and today's date) to a handler result `HRes` holding the HTTP
response, the flashed messages, and the updated store.

Python behaviours are made explicit:
- `db.session.get(Model, id)` is `List.find?` on the table by primary key;
- an uncaught exception (`AttributeError` from dereferencing `None` or from a
  nonexistent attribute, `IntegrityError` escaping a commit,
  `UnmappedInstanceError` from `session.delete(None)`) is `Response.crash`;
- `str(to_do.parent_category)` uses `Categories.__repr__` (the name) and
  Python's `str(None) = "None"`, embedded as `categoryStr`;
- dates are day numbers (`Nat`); `dt.datetime.now().date()` is the `today`
  parameter.
-/

namespace ToDoList

/-- Row of table `categories`: `id` primary key, `name` unique. -/
structure Categories where
  id : Nat
  name : String
deriving Repr, DecidableEq

/-- Row of table `to_dos`: `parent_id` is the nullable FK to `categories`. -/
structure ToDos where
  id : Nat
  name : String
  parent_id : Option Nat
  due_date : Nat
deriving Repr, DecidableEq

/-- Row of table `got_dones`: `category` is a plain string column (the
denormalized snapshot), not a foreign key. -/
structure GotDones where
  id : Nat
  name : String
  category : String
  date : Nat
deriving Repr, DecidableEq

/-- The persistent store: the three tables the lifecycle operations touch,
plus the autoincrement counters for their primary keys. -/
structure Store where
  categories : List Categories
  to_dos : List ToDos
  got_dones : List GotDones
  next_category_id : Nat
  next_to_do_id : Nat
  next_got_done_id : Nat
deriving Repr, DecidableEq

/-- Outcome of a view function. `crash` stands for an uncaught Python
exception (HTTP 500). `count` is a response carrying a number; no view of the
source ever produces it, it exists so that "returns the count" is statable. -/
inductive Response where
  | render : String → Response
  | redirect : String → Response
  | crash : Response
  | count : Nat → Response
deriving Repr, DecidableEq

/-- Result of one request: response, flashed messages, resulting store. -/
structure HRes where
  response : Response
  flashes : List String
  store : Store
deriving Repr, DecidableEq

/-- The `parent_category` relationship of a `ToDos` row: resolve the nullable
FK against the `categories` table. -/
def parent_category (s : Store) (t : ToDos) : Option Categories :=
  match t.parent_id with
  | none => none
  | some pid => s.categories.find? (fun c => c.id == pid)

/-- `str(parent_category)`: `Categories.__repr__` returns the name, and
Python renders an absent object as the literal string `"None"`. -/
def categoryStr : Option Categories → String
  | none => "None"
  | some c => c.name

/-- `date_check` form validator: true iff it raises `ValidationError`,
i.e. the entered date is strictly before today. -/
def date_check (today field_data : Nat) : Bool :=
  decide (field_data < today)

/-- Data submitted through the dynamically-built `ToDoForm` /
`UpdateToDoForm`: a name, a category (as the select field's string value) and
a due date. -/
structure ToDoFormData where
  name : String
  category : String
  due_date : Nat
deriving Repr, DecidableEq

/-- `validate_on_submit` for the to-do forms: `DataRequired` on the name,
the select field's value must be among the current categories' names
(the choices are built from the live category list), and `date_check` must
not raise. -/
def toDoFormValid (s : Store) (today : Nat) (f : ToDoFormData) : Bool :=
  (!(f.name == "")) && s.categories.any (fun c => c.name == f.category)
    && (!(date_check today f.due_date))

/-- View `dashboard` (`GET/POST /`): the only view that checks
`current_user.is_authenticated`; when unauthenticated it flashes and
redirects to the login page. -/
def dashboard (s : Store) (authed : Bool) : HRes :=
  if !authed then
    { response := .redirect "login"
      flashes := ["You need to login or register to comment."]
      store := s }
  else
    { response := .render "index.html", flashes := [], store := s }

/-- View `add_new_category` (`GET/POST /add-new-category`): never consults
the session. On a submitted, non-empty name it inserts and commits; an
`IntegrityError` (duplicate unique name) is caught, the failed insert is not
persisted, a flash is emitted, and in either case the view redirects to the
category page. Without a valid submission it renders the form. -/
def add_new_category (s : Store) (_authed : Bool) (form : Option String) : HRes :=
  match form with
  | none => { response := .render "add-new-category.html", flashes := [], store := s }
  | some nm =>
    if nm == "" then
      { response := .render "add-new-category.html", flashes := [], store := s }
    else if s.categories.any (fun c => c.name == nm) then
      { response := .redirect ("show_category/" ++ nm)
        flashes := ["This Category already exists!"]
        store := s }
    else
      { response := .redirect ("show_category/" ++ nm)
        flashes := []
        store := { s with
          categories := s.categories ++ [{ id := s.next_category_id, name := nm }]
          next_category_id := s.next_category_id + 1 } }

/-- View `add_new_to_do` (`GET/POST /add-new-to-do`): on a valid submission,
looks the chosen category up by name and inserts the new row; otherwise
renders the form. -/
def add_new_to_do (s : Store) (today : Nat) (form : Option ToDoFormData) : HRes :=
  match form with
  | none => { response := .render "add-new-to-do.html", flashes := [], store := s }
  | some f =>
    if toDoFormValid s today f then
      { response := .redirect "show_to_do"
        flashes := []
        store := { s with
          to_dos := s.to_dos ++ [{ id := s.next_to_do_id
                                   name := f.name
                                   parent_id := (s.categories.find?
                                     (fun c => c.name == f.category)).map (fun c => c.id)
                                   due_date := f.due_date }]
          next_to_do_id := s.next_to_do_id + 1 } }
    else
      { response := .render "add-new-to-do.html", flashes := [], store := s }

/-- View `update_to_do` (`GET/POST /update-to-do/<id>`): on an unknown id,
`db.session.get` returns `None` and building `UpdateToDoForm` dereferences
`to_do_update.name` — an uncaught `AttributeError`. On a valid submission the
three fields are updated and committed, after which the view dereferences the
nonexistent `to_do_update.subtasks` attribute — an uncaught `AttributeError`
after the commit, so the mutation persists but the response is a 500. -/
def update_to_do (s : Store) (today : Nat) (to_do_id : Nat)
    (form : Option ToDoFormData) : HRes :=
  match s.to_dos.find? (fun t => t.id == to_do_id) with
  | none => { response := .crash, flashes := [], store := s }
  | some _t =>
    match form with
    | none => { response := .render "update-to-do.html", flashes := [], store := s }
    | some f =>
      if toDoFormValid s today f then
        { response := .crash
          flashes := []
          store := { s with
            to_dos := s.to_dos.map (fun x =>
              if x.id == to_do_id then
                { x with name := f.name
                         parent_id := (s.categories.find?
                           (fun c => c.name == f.category)).map (fun c => c.id)
                         due_date := f.due_date }
              else x) } }
      else
        { response := .render "update-to-do.html", flashes := [], store := s }

/-- View `delete` (`GET /delete/<id>`): reads `requested_to_do.subtasks`,
but the `ToDos` model defines no `subtasks` attribute, so the view raises an
uncaught `AttributeError` for every input (on an unknown id it is the
`None` dereference instead); it never reaches the delete. -/
def delete (s : Store) (to_do_id : Nat) : HRes :=
  match s.to_dos.find? (fun t => t.id == to_do_id) with
  | none => { response := .crash, flashes := [], store := s }
  | some _t => { response := .crash, flashes := [], store := s }

/-- View `delete_to_do` (`GET /delete-with-sub/<id>`): deletes the row and
commits; on an unknown id `db.session.delete(None)` raises an uncaught
`UnmappedInstanceError`. -/
def delete_to_do (s : Store) (to_do_id : Nat) : HRes :=
  match s.to_dos.find? (fun t => t.id == to_do_id) with
  | none => { response := .crash, flashes := [], store := s }
  | some _t =>
    { response := .redirect "dashboard"
      flashes := []
      store := { s with to_dos := s.to_dos.filter (fun x => !(x.id == to_do_id)) } }

/-- View `update_category` (`GET/POST /update-category/<id>`): on a valid
submission, sets the fetched row's name and commits. An unknown id makes the
assignment `category_update.name = ...` dereference `None` (uncaught
`AttributeError`); a name colliding with a different existing category makes
the commit raise an uncaught `IntegrityError` (nothing persisted). -/
def update_category (s : Store) (category_id : Nat) (form : Option String) : HRes :=
  match s.categories.find? (fun c => c.id == category_id) with
  | none =>
    match form with
    | none => { response := .render "update-category.html", flashes := [], store := s }
    | some nm =>
      if nm == "" then
        { response := .render "update-category.html", flashes := [], store := s }
      else
        { response := .crash, flashes := [], store := s }
  | some cat =>
    match form with
    | none => { response := .render "update-category.html", flashes := [], store := s }
    | some nm =>
      if nm == "" then
        { response := .render "update-category.html", flashes := [], store := s }
      else if s.categories.any (fun c => c.name == nm && !(c.id == cat.id)) then
        { response := .crash, flashes := [], store := s }
      else
        { response := .redirect "show_category"
          flashes := []
          store := { s with
            categories := s.categories.map (fun c =>
              if c.id == cat.id then { c with name := nm } else c) } }

/-- View `mark_done` (`GET /mark-done/<id>`): never consults the session.
Snapshots `{name, str(parent_category), today}` into a new `GotDones` row,
deletes the to-do, and commits both in a single transaction. On an unknown
id, `requested_to_do.name` dereferences `None` — an uncaught
`AttributeError` before any mutation. -/
def mark_done (s : Store) (_authed : Bool) (today : Nat) (to_do_id : Nat) : HRes :=
  match s.to_dos.find? (fun t => t.id == to_do_id) with
  | none => { response := .crash, flashes := [], store := s }
  | some t =>
    { response := .redirect "dashboard"
      flashes := []
      store := { s with
        got_dones := s.got_dones ++ [{ id := s.next_got_done_id
                                       name := t.name
                                       category := categoryStr (parent_category s t)
                                       date := today }]
        to_dos := s.to_dos.filter (fun x => !(x.id == to_do_id))
        next_got_done_id := s.next_got_done_id + 1 }}

/-- View `clear_got_done` (`GET /clear-got-done`): deletes every `GotDones`
row (committing each) and redirects to the done view. No count is computed or
returned anywhere. -/
def clear_got_done (s : Store) : HRes :=
  { response := .redirect "got_done"
    flashes := []
    store := { s with got_dones := [] } }

/-- View `clear_categories` (second registration of `GET /clear-got-done`):
deletes every category; the ORM's default relationship handling nulls out the
FK of each to-do whose category is deleted. -/
def clear_categories (s : Store) : HRes :=
  { response := .redirect "dashboard"
    flashes := []
    store := { s with
      categories := []
      to_dos := s.to_dos.map (fun t =>
        match t.parent_id with
        | none => t
        | some pid =>
          if s.categories.any (fun c => c.id == pid) then { t with parent_id := none }
          else t) } }

/-- Insertion step for the date-descending order of the done view. -/
def insertByDateDesc (g : GotDones) : List GotDones → List GotDones
  | [] => [g]
  | h :: t => if g.date ≤ h.date then h :: insertByDateDesc g t else g :: h :: t

/-- Sort by completion date, newest first. -/
def sortByDateDesc : List GotDones → List GotDones
  | [] => []
  | h :: t => insertByDateDesc h (sortByDateDesc t)

/-- View `got_done` (`GET /got-done`): all `GotDones`, ordered by date
descending. -/
def got_done_listing (s : Store) : List GotDones :=
  sortByDateDesc s.got_dones

/-- View `all_categories` (`GET /all-categories`). -/
def all_categories_listing (s : Store) : List Categories :=
  s.categories

/-- View `all_to_dos` (`GET /all-to-dos`). -/
def all_to_dos_listing (s : Store) : List ToDos :=
  s.to_dos

/-- True iff a response is a bare count of records. -/
def isCount : Response → Bool
  | .count _ => true
  | _ => false

/-! ## Sample stores used by witnesses and counterexamples -/

/-- A store with one category "Work" and one live to-do in it. -/
def c1Store : Store :=
  { categories := [{ id := 1, name := "Work" }]
    to_dos := [{ id := 1, name := "report", parent_id := some 1, due_date := 9 }]
    got_dones := []
    next_category_id := 2, next_to_do_id := 2, next_got_done_id := 1 }

/-- The to-do row living in `c1Store`. -/
def c1ToDo : ToDos := { id := 1, name := "report", parent_id := some 1, due_date := 9 }

/-- The empty store. -/
def emptyStore : Store :=
  { categories := [], to_dos := [], got_dones := []
    next_category_id := 1, next_to_do_id := 1, next_got_done_id := 1 }

/-- A store with a single live to-do (id 1) and nothing else. -/
def c5Store : Store :=
  { categories := []
    to_dos := [{ id := 1, name := "report", parent_id := none, due_date := 9 }]
    got_dones := []
    next_category_id := 1, next_to_do_id := 2, next_got_done_id := 1 }

/-- A store with one category, one live to-do and two archived records. -/
def c7Store : Store :=
  { categories := [{ id := 1, name := "Work" }]
    to_dos := [{ id := 1, name := "report", parent_id := some 1, due_date := 9 }]
    got_dones := [{ id := 1, name := "a", category := "Work", date := 3 },
                  { id := 2, name := "b", category := "None", date := 5 }]
    next_category_id := 2, next_to_do_id := 2, next_got_done_id := 3 }

/-- A store with a single live to-do (id 1), used for the delete views. -/
def c8Store : Store :=
  { categories := []
    to_dos := [{ id := 1, name := "report", parent_id := none, due_date := 9 }]
    got_dones := []
    next_category_id := 1, next_to_do_id := 2, next_got_done_id := 1 }

/-- A store with a single to-do that has no parent category. -/
def c10Store : Store :=
  { categories := [{ id := 1, name := "Work" }]
    to_dos := [{ id := 2, name := "loose", parent_id := none, due_date := 4 }]
    got_dones := []
    next_category_id := 2, next_to_do_id := 3, next_got_done_id := 1 }

/-- The to-do row living in `c10Store`. -/
def c10ToDo : ToDos := { id := 2, name := "loose", parent_id := none, due_date := 4 }

/-! ## Claims -/

/-- Claim C1: for every existing task id, `mark_done` appends exactly one
`GotDones` record carrying the task's name, the string form of its current
category and the current date, removes the task from the live table (no row
with that id survives), and leaves the categories untouched — both effects
are part of the single resulting store (one commit). -/
theorem c1_complete_task_atomic (s : Store) (a : Bool) (today i : Nat) (t : ToDos)
    (h : s.to_dos.find? (fun x => x.id == i) = some t) :
    (mark_done s a today i).store.got_dones
      = s.got_dones
          ++ [⟨s.next_got_done_id, t.name, categoryStr (parent_category s t), today⟩] ∧
    (mark_done s a today i).store.to_dos = s.to_dos.filter (fun x => !(x.id == i)) ∧
    ((mark_done s a today i).store.to_dos.all (fun x => !(x.id == i))) = true ∧
    (mark_done s a today i).store.categories = s.categories := by
  have hall : (s.to_dos.filter (fun x => !(x.id == i))).all (fun x => !(x.id == i)) = true :=
    List.all_eq_true.mpr (fun x hx => (List.mem_filter.mp hx).2)
  simp [mark_done, h, hall]

/-- Witness for C1 at `c1Store`, task id 1, completed on day 9. -/
theorem c1_complete_task_atomic_witness :
    c1Store.to_dos.find? (fun x => x.id == 1) = some c1ToDo ∧
    ((mark_done c1Store true 9 1).store.got_dones
        = c1Store.got_dones
            ++ [⟨c1Store.next_got_done_id, c1ToDo.name,
                  categoryStr (parent_category c1Store c1ToDo), 9⟩] ∧
      (mark_done c1Store true 9 1).store.to_dos
        = c1Store.to_dos.filter (fun x => !(x.id == 1)) ∧
      ((mark_done c1Store true 9 1).store.to_dos.all (fun x => !(x.id == 1))) = true ∧
      (mark_done c1Store true 9 1).store.categories = c1Store.categories) :=
  ⟨by decide, c1_complete_task_atomic c1Store true 9 1 c1ToDo (by decide)⟩

/-- Claim C2 counterexample: with no authenticated session, submitting a new
category still mutates the store and does not redirect to login — the view
performs the mutation regardless of the session. -/
theorem c2_counterexample :
    (add_new_category emptyStore false (some "Work")).store ≠ emptyStore ∧
    (add_new_category emptyStore false (some "Work")).response
      ≠ Response.redirect "login" := by
  decide

/-- Claim C2 (amended): only the dashboard view checks the session — when it
is absent the dashboard flashes and redirects to login without mutating the
store — while the lifecycle-mutating views (create category, complete task)
never consult the session: their behaviour is identical with and without an
authenticated session. -/
theorem c2_amended_session_check (s : Store) (a : Bool) (form : Option String)
    (today i : Nat) :
    ((dashboard s false).response = Response.redirect "login" ∧
      (dashboard s false).store = s) ∧
    add_new_category s a form = add_new_category s true form ∧
    mark_done s a today i = mark_done s true today i :=
  ⟨⟨rfl, rfl⟩, rfl, rfl⟩

/-- Claim C5 (code bug): after completing task 1, a further `update_to_do`
on the same id crashes (uncaught `AttributeError` from dereferencing `None`)
instead of returning NotFound — though it indeed mutates nothing — and a
further `mark_done` on the same id crashes likewise. -/
theorem c5_terminal_id_crashes :
    (update_to_do (mark_done c5Store true 9 1).store 9 1
        (some { name := "x", category := "Work", due_date := 10 })).response
      = Response.crash ∧
    (update_to_do (mark_done c5Store true 9 1).store 9 1
        (some { name := "x", category := "Work", due_date := 10 })).store
      = (mark_done c5Store true 9 1).store ∧
    (mark_done (mark_done c5Store true 9 1).store true 9 1).response
      = Response.crash := by
  decide

/-- Claim C7 counterexample: at a store with two archived records,
`clear_got_done` answers a redirect to the done view — not a count of the
removed records (no count appears in its response). -/
theorem c7_counterexample :
    (clear_got_done c7Store).response = Response.redirect "got_done" ∧
    isCount (clear_got_done c7Store).response = false := by
  decide

/-- Claim C7 (amended): `clear_got_done` removes every `GotDones` record and
redirects to the done view without reporting a count; every to-do row and
every category row is unchanged, and a subsequent done listing is empty. -/
theorem c7_clear_done (s : Store) :
    (clear_got_done s).store.got_dones = [] ∧
    got_done_listing (clear_got_done s).store = [] ∧
    (clear_got_done s).store.to_dos = s.to_dos ∧
    (clear_got_done s).store.categories = s.categories ∧
    isCount (clear_got_done s).response = false ∧
    (clear_got_done s).response = Response.redirect "got_done" :=
  ⟨rfl, rfl, rfl, rfl, rfl, rfl⟩

/-- Claim C8 (code bug): the `delete` view crashes even on the existing task
id 1 (the `ToDos` model has no `subtasks` attribute) and removes nothing;
the `delete_to_do` view crashes on the unknown id 2 instead of reporting
NotFound; `delete_to_do` does hard-delete an existing id without archiving. -/
theorem c8_delete_crashes :
    ((delete c8Store 1).response = Response.crash ∧
      (delete c8Store 1).store = c8Store) ∧
    ((delete_to_do c8Store 2).response = Response.crash ∧
      (delete_to_do c8Store 2).store = c8Store) ∧
    ((delete_to_do c8Store 1).store.to_dos = [] ∧
      (delete_to_do c8Store 1).store.got_dones = []) := by
  decide

/-- Claim C10: completing a task whose category reference is null records the
literal string "None" as the archived record's category, because the snapshot
string-coerces the absent category object. -/
theorem c10_null_category_snapshot (s : Store) (a : Bool) (today i : Nat) (t : ToDos)
    (ht : s.to_dos.find? (fun x => x.id == i) = some t)
    (hp : t.parent_id = none) :
    (mark_done s a today i).store.got_dones
      = s.got_dones ++ [⟨s.next_got_done_id, t.name, "None", today⟩] := by
  simp only [mark_done, ht, parent_category, hp, categoryStr]

/-- Witness for C10 at `c10Store`, task id 2 (no parent category). -/
theorem c10_null_category_snapshot_witness :
    c10Store.to_dos.find? (fun x => x.id == 2) = some c10ToDo ∧
    c10ToDo.parent_id = none ∧
    (mark_done c10Store true 4 2).store.got_dones
      = c10Store.got_dones ++ [⟨c10Store.next_got_done_id, c10ToDo.name, "None", 4⟩] :=
  ⟨by decide, by decide,
    c10_null_category_snapshot c10Store true 4 2 c10ToDo (by decide) (by decide)⟩

/-- A store holding exactly one category named "Work". -/
def c3Store : Store :=
  { categories := [{ id := 1, name := "Work" }], to_dos := [], got_dones := []
    next_category_id := 2, next_to_do_id := 1, next_got_done_id := 1 }

/-- Claim C3: when exactly one category named `nm` exists (the uniqueness
invariant the schema enforces), submitting `nm` again hits the uniqueness
violation: the store is left completely unchanged, the duplicate is reported
by a flash, and exactly one category row named `nm` remains. -/
theorem c3_duplicate_category (s : Store) (a : Bool) (nm : String)
    (hne : nm ≠ "")
    (hcount : s.categories.countP (fun c => c.name == nm) = 1) :
    (add_new_category s a (some nm)).store = s ∧
    (add_new_category s a (some nm)).flashes = ["This Category already exists!"] ∧
    (add_new_category s a (some nm)).store.categories.countP
      (fun c => c.name == nm) = 1 := by
  have hany : s.categories.any (fun c => c.name == nm) = true := by
    rw [List.any_eq_true]
    have hpos : 0 < s.categories.countP (fun c => c.name == nm) := by omega
    obtain ⟨c, hc, hcp⟩ := List.countP_pos_iff.mp hpos
    exact ⟨c, hc, hcp⟩
  simp [add_new_category, hne, hany, hcount]

/-- Witness for C3 at `c3Store` with the duplicate name "Work". -/
theorem c3_duplicate_category_witness :
    ("Work" : String) ≠ "" ∧
    c3Store.categories.countP (fun c => c.name == "Work") = 1 ∧
    ((add_new_category c3Store true (some "Work")).store = c3Store ∧
      (add_new_category c3Store true (some "Work")).flashes
        = ["This Category already exists!"] ∧
      (add_new_category c3Store true (some "Work")).store.categories.countP
        (fun c => c.name == "Work") = 1) :=
  ⟨by decide, by decide, c3_duplicate_category c3Store true "Work" (by decide) (by decide)⟩

/-- Claim C4: completing a task whose resolved category is the row `c`
snapshots the literal string `c.name` into the archived record, and neither
`update_category` (rename) nor `clear_categories` (category deletion) ever
touches the `got_dones` table in any store — the snapshot is by value, not a
live reference. -/
theorem c4_snapshot_by_value (s : Store) (a : Bool) (today i cid : Nat)
    (t : ToDos) (c : Categories)
    (ht : s.to_dos.find? (fun x => x.id == i) = some t)
    (hp : t.parent_id = some cid)
    (hc : s.categories.find? (fun x => x.id == cid) = some c) :
    (mark_done s a today i).store.got_dones
      = s.got_dones ++ [⟨s.next_got_done_id, t.name, c.name, today⟩] ∧
    (∀ s2 cid2 form, ((update_category s2 cid2 form).store).got_dones = s2.got_dones) ∧
    (∀ s2, ((clear_categories s2).store).got_dones = s2.got_dones) := by
  refine ⟨?_, ?_, fun s2 => rfl⟩
  · simp only [mark_done, ht, parent_category, hp, hc, categoryStr]
  · intro s2 cid2 form
    unfold update_category
    cases s2.categories.find? (fun c => c.id == cid2) <;> cases form <;>
      first
        | rfl
        | (dsimp only; split <;> first | rfl | (split <;> rfl))

/-- The recorded row of `c1Store` resolves to category "Work". -/
def c4Cat : Categories := { id := 1, name := "Work" }

/-- Witness for C4 at `c1Store`, task id 1 in category "Work". -/
theorem c4_snapshot_by_value_witness :
    c1Store.to_dos.find? (fun x => x.id == 1) = some c1ToDo ∧
    c1ToDo.parent_id = some 1 ∧
    c1Store.categories.find? (fun x => x.id == 1) = some c4Cat ∧
    ((mark_done c1Store false 9 1).store.got_dones
        = c1Store.got_dones ++ [⟨c1Store.next_got_done_id, c1ToDo.name, c4Cat.name, 9⟩] ∧
      (∀ s2 cid2 form, ((update_category s2 cid2 form).store).got_dones = s2.got_dones) ∧
      (∀ s2, ((clear_categories s2).store).got_dones = s2.got_dones)) :=
  ⟨by decide, by decide, by decide,
    c4_snapshot_by_value c1Store false 9 1 1 c1ToDo c4Cat (by decide) (by decide) (by decide)⟩

/-- A store with one category "Work" for the creation witness. -/
def c6Store : Store :=
  { categories := [{ id := 1, name := "Work" }], to_dos := [], got_dones := []
    next_category_id := 2, next_to_do_id := 1, next_got_done_id := 1 }

/-- Claim C6: a submitted due date strictly before today fails `date_check`,
so the form does not validate — nothing is stored and the form is re-rendered;
a due date of today or later passes the date validation, and with the other
fields valid the new task is appended to the store. -/
theorem c6_due_date_validation (s : Store) (today : Nat) (f : ToDoFormData) :
    (f.due_date < today →
      (add_new_to_do s today (some f)).store = s ∧
      (add_new_to_do s today (some f)).response = Response.render "add-new-to-do.html") ∧
    (today ≤ f.due_date → f.name ≠ "" →
      s.categories.any (fun c => c.name == f.category) = true →
      (add_new_to_do s today (some f)).store.to_dos
        = s.to_dos
            ++ [⟨s.next_to_do_id, f.name,
                  (s.categories.find? (fun c => c.name == f.category)).map (fun c => c.id),
                  f.due_date⟩] ∧
      (add_new_to_do s today (some f)).response = Response.redirect "show_to_do") := by
  constructor
  · intro hlt
    have hdc : date_check today f.due_date = true := by
      simp [date_check, hlt]
    have hvalid : toDoFormValid s today f = false := by
      simp [toDoFormValid, hdc]
    simp [add_new_to_do, hvalid]
  · intro hge hname hcat
    have hdc : date_check today f.due_date = false := by
      simp [date_check]; omega
    have hvalid : toDoFormValid s today f = true := by
      simp [toDoFormValid, hdc, hname, hcat]
    simp [add_new_to_do, hvalid]

/-- Witness for C6 at `c6Store` (today = 10): due date 3 is rejected with
nothing stored; due date 12 with valid name and category is stored. -/
theorem c6_due_date_validation_witness :
    ((3 : Nat) < 10 ∧
      (add_new_to_do c6Store 10 (some ⟨"task", "Work", 3⟩)).store = c6Store) ∧
    ((10 : Nat) ≤ 12 ∧
      (add_new_to_do c6Store 10 (some ⟨"task", "Work", 12⟩)).store.to_dos
        = c6Store.to_dos
            ++ [⟨c6Store.next_to_do_id, "task",
                  (c6Store.categories.find? (fun c => c.name == "Work")).map (fun c => c.id),
                  12⟩]) :=
  ⟨⟨by decide,
      ((c6_due_date_validation c6Store 10 ⟨"task", "Work", 3⟩).1 (by decide)).1⟩,
    ⟨by decide,
      ((c6_due_date_validation c6Store 10 ⟨"task", "Work", 12⟩).2 (by decide) (by decide)
        (by decide)).1⟩⟩

/-- Claim C9: starting from a store with no category named `x` or `y`
(distinct non-empty names) and a fresh autoincrement id, creating category
`x` and then renaming the created row to `y` leaves the category table with
exactly one row named `y` and no row named `x`, and the rename redirects to
the category page. -/
theorem c9_create_rename_round_trip (s : Store) (x y : String)
    (hx : x ≠ "") (hy : y ≠ "") (hxy : x ≠ y)
    (hnx : ∀ c ∈ s.categories, c.name ≠ x)
    (hny : ∀ c ∈ s.categories, c.name ≠ y)
    (hid : ∀ c ∈ s.categories, c.id ≠ s.next_category_id) :
    ((update_category (add_new_category s true (some x)).store
        s.next_category_id (some y)).store.categories.countP
          (fun c => c.name == y)) = 1 ∧
    ((update_category (add_new_category s true (some x)).store
        s.next_category_id (some y)).store.categories.countP
          (fun c => c.name == x)) = 0 ∧
    (update_category (add_new_category s true (some x)).store
        s.next_category_id (some y)).response = Response.redirect "show_category" := by
  have hxb : (x == "") = false := beq_eq_false_iff_ne.mpr hx
  have hyb : (y == "") = false := beq_eq_false_iff_ne.mpr hy
  have hanyx : s.categories.any (fun c => c.name == x) = false := by
    rw [List.any_eq_false]; intro c hc; simp [hnx c hc]
  have h1 : (add_new_category s true (some x)).store
      = { s with categories := s.categories ++ [⟨s.next_category_id, x⟩]
                 next_category_id := s.next_category_id + 1 } := by
    simp [add_new_category, hxb, hanyx]
  have hfindid : (s.categories ++ [(⟨s.next_category_id, x⟩ : Categories)]).find?
      (fun c => c.id == s.next_category_id) = some ⟨s.next_category_id, x⟩ := by
    rw [List.find?_append]
    have h0 : s.categories.find? (fun c => c.id == s.next_category_id) = none := by
      rw [List.find?_eq_none]; intro c hc; simp [hid c hc]
    rw [h0]; simp
  have hdup : ((s.categories ++ [(⟨s.next_category_id, x⟩ : Categories)]).any
      (fun c => c.name == y && !(c.id == s.next_category_id))) = false := by
    rw [List.any_append]
    have ha : s.categories.any
        (fun c => c.name == y && !(c.id == s.next_category_id)) = false := by
      rw [List.any_eq_false]; intro c hc; simp [hny c hc]
    rw [ha]; simp
  have h2 : update_category
      { s with categories := s.categories ++ [⟨s.next_category_id, x⟩]
               next_category_id := s.next_category_id + 1 }
      s.next_category_id (some y)
      = { response := Response.redirect "show_category"
          flashes := []
          store := { s with categories := s.categories ++ [⟨s.next_category_id, y⟩]
                            next_category_id := s.next_category_id + 1 } } := by
    simp only [update_category, hfindid, hdup, hyb]
    simp
    have hmc : s.categories.map
        (fun c => if c.id = s.next_category_id then { c with name := y } else c)
        = s.categories.map (fun c => c) :=
      List.map_congr_left (fun c hc => by simp [hid c hc])
    rw [hmc, List.map_id']
  rw [h1, h2]
  have h0y : s.categories.countP (fun c => c.name == y) = 0 := by
    rw [List.countP_eq_zero]; intro c hc; simp [hny c hc]
  have h0x : s.categories.countP (fun c => c.name == x) = 0 := by
    rw [List.countP_eq_zero]; intro c hc; simp [hnx c hc]
  have hyx : ((y == x)) = false := beq_eq_false_iff_ne.mpr (Ne.symm hxy)
  refine ⟨?_, ?_, rfl⟩
  · simp [List.countP_append, h0y, List.countP_singleton]
  · simp [List.countP_append, h0x, List.countP_singleton, hyx]

/-- Witness for C9 from the empty store with names "X" and "Y". -/
theorem c9_create_rename_round_trip_witness :
    (("X" : String) ≠ "" ∧ ("Y" : String) ≠ "" ∧ ("X" : String) ≠ "Y" ∧
      (∀ c ∈ emptyStore.categories, c.name ≠ "X") ∧
      (∀ c ∈ emptyStore.categories, c.name ≠ "Y") ∧
      (∀ c ∈ emptyStore.categories, c.id ≠ emptyStore.next_category_id)) ∧
    (((update_category (add_new_category emptyStore true (some "X")).store
        emptyStore.next_category_id (some "Y")).store.categories.countP
          (fun c => c.name == "Y")) = 1 ∧
      ((update_category (add_new_category emptyStore true (some "X")).store
        emptyStore.next_category_id (some "Y")).store.categories.countP
          (fun c => c.name == "X")) = 0 ∧
      (update_category (add_new_category emptyStore true (some "X")).store
        emptyStore.next_category_id (some "Y")).response
        = Response.redirect "show_category") :=
  ⟨⟨by decide, by decide, by decide, by decide, by decide, by decide⟩,
    c9_create_rename_round_trip emptyStore "X" "Y" (by decide) (by decide) (by decide)
      (by decide) (by decide) (by decide)⟩

end ToDoList
